import Mathlib

/-!
# cryptsetup-ez: the command dispatcher of `main.go`

A shallow embedding of `src/main.go`.  The program is a thin layer around the
go-cryptsetup bindings: it parses five flags, picks one of three operations
(`close`, `encrypt`, `open`) and turns the first failing library call into an
exit code.

The external library is a black box.  Its calls are recorded in a trace of
events, and whether a call succeeds is read from an oracle (`World`).  The
process model keeps the two features of Go the program depends on:

* `defer f()` runs `f` when the surrounding function returns normally;
* `os.Exit(code)` ends the process at once, without running deferred calls.
-/

namespace CryptsetupEz

/-! ## Exit codes (main.go, lines 12-19) -/

def EINIT : Nat := 11
def EFORM : Nat := 12
def EPASS : Nat := 13
def EDEAC : Nat := 14
def EACTP : Nat := 15
def ELOAD : Nat := 16

/-! ## Values handed to the library -/

/-- The fields of `cryptsetup.PbkdfType` that `encrypt` fills in. -/
structure PbkdfType where
  Type_ : String
  Hash : String
  TimeMs : Nat
  Iterations : Nat
  MaxMemoryKb : Nat
  ParallelThreads : Nat
  Flags : Nat
deriving DecidableEq, Repr

/-- The fields of `cryptsetup.LUKS2` that `encrypt` fills in; `PBKDFType` is a
pointer in Go, `none` is the nil pointer. -/
structure LUKS2 where
  SectorSize : Nat
  PBKDFType : Option PbkdfType
deriving DecidableEq, Repr

/-- The fields of `cryptsetup.GenericParams` that `encrypt` fills in. -/
structure GenericParams where
  Cipher : String
  CipherMode : String
  VolumeKeySize : Nat
deriving DecidableEq, Repr

/-- A device handle, as returned by `cryptsetup.Init` (from a device path) or
`cryptsetup.InitByName` (from the name of an active mapping). -/
structure Device where
  ref : String
deriving DecidableEq, Repr

/-- Output streams of the process. -/
inductive Stream where
  | stdout
  | stderr
deriving DecidableEq, Repr

/-- What the process does that is visible from outside, in program order.  A
library call that returns an error carries `ok = false`. -/
inductive Event where
  | setLogCallback (verbose : Bool)
  | printDefaults
  | initByName (name : String) (ok : Bool)
  | init (dev : String) (ok : Bool)
  | free (d : Device)
  | deactivate (d : Device) (name : String) (ok : Bool)
  | format (d : Device) (luks2 : LUKS2) (params : GenericParams) (ok : Bool)
  | keyslotAddByVolumeKey (d : Device) (keyslot : Int) (volumeKey : String)
      (passphrase : String) (ok : Bool)
  | load (d : Device) (hint : Option String) (ok : Bool)
  | activateByPassphrase (d : Device) (name : String) (keyslot : Int)
      (passphrase : String) (flags : Int) (ok : Bool)
  | deviceType (d : Device)
  | readPassword (fd : Nat) (ok : Bool)
  | write (s : Stream) (text : String)
deriving DecidableEq, Repr

/-- The calls into the cryptsetup library that an operation makes on a device
(or to obtain one). -/
inductive CallKind where
  | initByName
  | init
  | free
  | deactivate
  | format
  | keyslotAddByVolumeKey
  | load
  | activateByPassphrase
  | deviceType
deriving DecidableEq, Repr

/-- The library call an event stands for, if it is one. -/
def Event.call? : Event → Option CallKind
  | .initByName _ _ => some .initByName
  | .init _ _ => some .init
  | .free _ => some .free
  | .deactivate _ _ _ => some .deactivate
  | .format _ _ _ _ => some .format
  | .keyslotAddByVolumeKey _ _ _ _ _ => some .keyslotAddByVolumeKey
  | .load _ _ _ => some .load
  | .activateByPassphrase _ _ _ _ _ _ => some .activateByPassphrase
  | .deviceType _ => some .deviceType
  | _ => none

/-- Whether the event is a call into the cryptsetup library. -/
def Event.isLibCall (e : Event) : Bool := e.call?.isSome

/-- Whether the event is a library call that returned an error. -/
def Event.isFailedCall : Event → Bool
  | .initByName _ ok => !ok
  | .init _ ok => !ok
  | .deactivate _ _ ok => !ok
  | .format _ _ _ ok => !ok
  | .keyslotAddByVolumeKey _ _ _ _ ok => !ok
  | .load _ _ ok => !ok
  | .activateByPassphrase _ _ _ _ _ ok => !ok
  | _ => false

/-- Whether the event is a release of a device handle. -/
def Event.isFree : Event → Bool
  | .free _ => true
  | _ => false

/-! ## The environment -/

/-- The behaviour of everything outside the program during one run: for each
library call whether it succeeds, what `device.Type()` answers, and what
`term.ReadPassword` returns (`passB = none` is the nil slice, `readErr` says
that its error result is non-nil). -/
structure World where
  initByNameOk : String → Bool
  initOk : String → Bool
  deactivateOk : Device → String → Bool
  formatOk : Device → LUKS2 → GenericParams → Bool
  keyslotAddOk : Device → Int → String → String → Bool
  loadOk : Device → Option String → Bool
  activateOk : Device → String → Int → String → Int → Bool
  typeOf : Device → String
  passB : Option String
  readErr : Bool

/-! ## The process model -/

/-- The state of the running function: what the process has done so far and
the calls deferred by the current function, most recent first. -/
structure ProcState where
  trace : List Event
  deferred : List Event

/-- How a piece of code ends: it falls through to the next statement, or the
process is gone (`os.Exit`) with what it had done until then. -/
inductive Flow (α : Type) where
  | next (a : α) (s : ProcState)
  | exited (code : Nat) (trace : List Event)

/-- A piece of Go code producing an `α`. -/
def Proc (α : Type) : Type := ProcState → Flow α

def Proc.pure {α : Type} (a : α) : Proc α := fun s => .next a s

def Proc.bind {α β : Type} (p : Proc α) (f : α → Proc β) : Proc β := fun s =>
  match p s with
  | .next a s1 => f a s1
  | .exited c t => .exited c t

instance : Monad Proc where
  pure := Proc.pure
  bind := Proc.bind

/-- Records an event. -/
def emit (e : Event) : Proc Unit := fun s =>
  .next () { s with trace := s.trace ++ [e] }

/-- A `defer` statement: the call is remembered, not run. -/
def deferCall (e : Event) : Proc Unit := fun s =>
  .next () { s with deferred := e :: s.deferred }

/-- The call `os.Exit(code)`: the process ends here; deferred calls are dropped. -/
def osExit {α : Type} (code : Nat) : Proc α := fun s => .exited code s.trace

/-- A call of a Go function with the given body: the body runs with no deferred
calls of its own; when it returns, its deferred calls run, last deferred first,
and the caller goes on. -/
def callFunc (body : Proc Unit) : Proc Unit := fun s =>
  match body { trace := s.trace, deferred := [] } with
  | .next _ s1 => .next () { trace := s1.trace ++ s1.deferred, deferred := s.deferred }
  | .exited c t => .exited c t

/-- The outcome of a whole process. -/
structure Result where
  trace : List Event
  exitCode : Nat
deriving DecidableEq, Repr

/-- Runs a function as the whole program: when the function returns, the
process ends with status 0. -/
def runProcess (body : Proc Unit) : Result :=
  match callFunc body { trace := [], deferred := [] } with
  | .next _ s => { trace := s.trace, exitCode := 0 }
  | .exited c t => { trace := t, exitCode := c }

/-! ## Formatted output (package fmt) -/

/-- The text of `fmt.Println(a...)` and `fmt.Fprintln(w, a...)` for string
operands: the operands separated by one space, then a newline. -/
def sprintln (args : List String) : String :=
  " ".intercalate args ++ "\n"

def fprintln (s : Stream) (args : List String) : Proc Unit :=
  emit (.write s (sprintln args))

/-! ### `fmt.Printf` with a format and no operands

`main` registers a log callback that calls `fmt.Printf(message)`: the message is
the format string and there is no operand.  The definitions below follow
`doPrintf` of Go's `fmt/print.go` for an empty operand list, on the characters
of the format.  Widths and precisions are parsed as in Go; with no operand they
have no effect on the text. -/

/-- The function `tooLarge` of `fmt/print.go`: a width, precision or index
beyond one million is refused. -/
def tooLarge (x : Nat) : Bool := decide (1000000 < x)

/-- The loop of `parsenum`: reads decimal digits, stopping at the first other
character.  On overflow the whole rest of the input is given up. -/
def parsenumLoop : List Char → Nat → Bool → Nat × Bool × List Char
  | [], num, isnum => (num, isnum, [])
  | c :: cs, num, isnum =>
    if '0' ≤ c ∧ c ≤ '9' then
      if tooLarge num then (0, false, [])
      else parsenumLoop cs (num * 10 + (c.toNat - '0'.toNat)) true
    else (num, isnum, c :: cs)

/-- The function `parsenum` on the characters from `start` to `end`: the
number, whether there was one, and the characters left. -/
def parsenum (cs : List Char) : Nat × Bool × List Char := parsenumLoop cs 0 false

/-- The function `parseArgNumber` on a format that starts with an opening
bracket: the zero-based index, the number of characters to skip, and whether
the bracket holds a number. -/
def parseArgNumber (f : List Char) : Int × Nat × Bool :=
  if f.length < 3 then (0, 1, false)
  else
    let inner := (f.drop 1).takeWhile (fun c => c != ']')
    if inner.length + 1 < f.length then
      match parsenum inner with
      | (width, ok, rest) =>
        if !ok || !rest.isEmpty then (0, inner.length + 2, false)
        else ((width : Int) - 1, inner.length + 2, true)
    else (0, 1, false)

/-- The method `argNumber` with no operands: without a bracket nothing changes;
with one, the index can never be in range, so `goodArgNum` drops to false.
Returns the characters left, `afterIndex` and `goodArgNum`. -/
def argNumber (cs : List Char) (goodArgNum : Bool) : List Char × Bool × Bool :=
  match cs with
  | '[' :: _ =>
    match parseArgNumber cs with
    | (_, wid, ok) => (cs.drop wid, ok, false)
  | _ => (cs, false, goodArgNum)

/-- Whether the character is one of the flags of a verb. -/
def isFlagChar (c : Char) : Bool :=
  c == '#' || c == '0' || c == '+' || c == '-' || c == ' '

/-- The width part of a verb: a star asks for an operand that is not there
(`%!(BADWIDTH)`), otherwise digits.  Returns the text written, the characters
left, `afterIndex` and `goodArgNum`. -/
def verbWidth (cs : List Char) (afterIndex good : Bool) :
    List Char × List Char × Bool × Bool :=
  match cs with
  | '*' :: rest => ("%!(BADWIDTH)".toList, rest, false, good)
  | _ =>
    match parsenum cs with
    | (_, widPresent, rest) =>
      ([], rest, afterIndex, if afterIndex && widPresent then false else good)

/-- The precision part of a verb, present when the next character is a dot. -/
def verbPrec (cs : List Char) (afterIndex good : Bool) :
    List Char × List Char × Bool × Bool :=
  match cs with
  | '.' :: rest =>
    let good1 := if afterIndex then false else good
    match argNumber rest good1 with
    | (rest1, afterIndex1, good2) =>
      match rest1 with
      | '*' :: rest2 => ("%!(BADPREC)".toList, rest2, false, good2)
      | _ =>
        match parsenum rest1 with
        | (_, _, rest2) => ([], rest2, afterIndex1, good2)
  | _ => ([], cs, afterIndex, good)

/-- One verb of the format, from the character after the percent sign: the text
written and the characters left, `none` when the format ended inside the verb
(`%!(NOVERB)`, and the loop is left). -/
def doVerb (cs : List Char) : List Char × Option (List Char) :=
  let cs1 := cs.dropWhile isFlagChar
  match argNumber cs1 true with
  | (cs2, afterIndex, good) =>
    match verbWidth cs2 afterIndex good with
    | (outW, cs3, afterIndex1, good1) =>
      match verbPrec cs3 afterIndex1 good1 with
      | (outP, cs4, afterIndex2, good2) =>
        match (if afterIndex2 then (cs4, afterIndex2, good2) else argNumber cs4 good2) with
        | (cs5, _, good3) =>
          match cs5 with
          | [] => (outW ++ outP ++ "%!(NOVERB)".toList, none)
          | verb :: rest =>
            if verb == '%' then (outW ++ outP ++ ['%'], some rest)
            else if !good3 then
              (outW ++ outP ++ "%!".toList ++ [verb] ++ "(BADINDEX)".toList, some rest)
            else
              (outW ++ outP ++ "%!".toList ++ [verb] ++ "(MISSING)".toList, some rest)

/-- The loop of `doPrintf` with no operands: text up to the next percent sign
is copied, then one verb is handled.  Every round takes at least the percent
sign, so as many rounds as the format has characters, plus one, are enough. -/
def doPrintf : Nat → List Char → List Char
  | 0, _ => []
  | fuel + 1, format =>
    let lit := format.takeWhile (fun c => c != '%')
    match format.dropWhile (fun c => c != '%') with
    | [] => lit
    | _ :: afterPercent =>
      match doVerb afterPercent with
      | (out, none) => lit ++ out
      | (out, some rest) => lit ++ out ++ doPrintf fuel rest

/-- The text written by `fmt.Printf(format)`. -/
def sprintf (format : String) : String :=
  String.mk (doPrintf (format.length + 1) format.toList)

/-! ## The program -/

/-- The conversion `string(passB)`: the bytes as a string, the empty string for
the nil slice. -/
def goString (passB : Option String) : String := passB.getD ""

/-- The values of the flags after `flag.Parse()`; a flag that was not given
holds its default, the empty string or false. -/
structure Flags where
  close : String
  encrypt : String
  name : String
  open_ : String
  v : Bool
deriving DecidableEq, Repr

/-- The function handed to `cryptsetup.SetLogCallback` (main.go, lines 30-34),
as what it writes when the library calls it. -/
def logCallback (verbose : Bool) (_level : Int) (message : String) : List Event :=
  if verbose then [.write .stdout (sprintf message)] else []

/-- The function `close` (main.go, lines 51-64). -/
def close (w : World) (name : String) : Proc Unit := do
  let ok := w.initByNameOk name
  emit (.initByName name ok)
  if !ok then
    fprintln .stderr ["Error initializing device by name", name]
    osExit EINIT
  let device : Device := { ref := name }
  deferCall (.free device)
  let ok := w.deactivateOk device name
  emit (.deactivate device name ok)
  if !ok then
    fprintln .stderr ["Error deactivating device", name]
    osExit EDEAC

/-- The local `pbkdftype` of `encrypt` (main.go, lines 67-75). -/
def pbkdftype : PbkdfType :=
  { Type_ := "argon2id"
    Hash := "sha512"
    TimeMs := 2 * 1000
    Iterations := 2
    MaxMemoryKb := 16 * 1024
    ParallelThreads := 2
    Flags := 1 }

/-- The local `luks2` of `encrypt` (main.go, lines 76-79); `PBKDFType` points to
`pbkdftype`. -/
def luks2 : LUKS2 :=
  { SectorSize := 512
    PBKDFType := some pbkdftype }

/-- The `cryptsetup.GenericParams` literal of the format call (main.go, line 91). -/
def genericParams : GenericParams :=
  { Cipher := "aes", CipherMode := "xts-plain64", VolumeKeySize := 512 / 8 }

/-- The function `encrypt` (main.go, lines 66-104).  The error result of
`term.ReadPassword` is assigned to `err` and overwritten by the format call
before anything reads it. -/
def encrypt (w : World) (dev : String) : Proc Unit := do
  let ok := w.initOk dev
  emit (.init dev ok)
  if !ok then
    fprintln .stderr ["Error initializing device", dev]
    osExit EINIT
  let device : Device := { ref := dev }
  deferCall (.free device)
  fprintln .stdout ["Enter password:"]
  emit (.readPassword 0 (!w.readErr))
  let passB := w.passB
  let ok := w.formatOk device luks2 genericParams
  emit (.format device luks2 genericParams ok)
  if !ok then
    fprintln .stderr ["Error formatting device"]
    osExit EFORM
  let ok := w.keyslotAddOk device 0 "" (goString passB)
  emit (.keyslotAddByVolumeKey device 0 "" (goString passB) ok)
  if !ok then
    fprintln .stderr ["Error setting password"]
    osExit EPASS
  emit (.deviceType device)
  fprintln .stdout ["Formatted device:", w.typeOf device]

/-- The function `open` (main.go, lines 106-128); `open` is a keyword of Lean,
hence the underscore.  As in `encrypt`, the error of `term.ReadPassword` is
overwritten unread. -/
def open_ (w : World) (dev : String) (name : String) : Proc Unit := do
  let ok := w.initOk dev
  emit (.init dev ok)
  if !ok then
    fprintln .stderr ["Error initializing device", dev]
    osExit EINIT
  let device : Device := { ref := dev }
  deferCall (.free device)
  let ok := w.loadOk device none
  emit (.load device none ok)
  if !ok then
    fprintln .stderr ["Error loading device", dev]
    osExit ELOAD
  fprintln .stdout ["Enter password:"]
  emit (.readPassword 0 (!w.readErr))
  let passB := w.passB
  let ok := w.activateOk device name 0 (goString passB) 0
  emit (.activateByPassphrase device name 0 (goString passB) 0 ok)
  if !ok then
    fprintln .stderr ["Error activating device by passphrase", dev]
    osExit EACTP

/-- The function `main` (main.go, lines 21-49), after `flag.Parse()`. -/
def main (w : World) (f : Flags) : Proc Unit := do
  emit (.setLogCallback f.v)
  if f.close != "" then
    callFunc (close w f.close)
  else if f.encrypt != "" then
    callFunc (encrypt w f.encrypt)
  else if f.open_ != "" && f.name != "" then
    callFunc (open_ w f.open_ f.name)
  else
    emit .printDefaults

/-- A world in which every call succeeds and the password typed is `secret`. -/
def okWorld : World :=
  { initByNameOk := fun _ => true
    initOk := fun _ => true
    deactivateOk := fun _ _ => true
    formatOk := fun _ _ _ => true
    keyslotAddOk := fun _ _ _ _ => true
    loadOk := fun _ _ => true
    activateOk := fun _ _ _ _ _ => true
    typeOf := fun _ => "LUKS2"
    passB := some "secret"
    readErr := false }

/-! ## Vocabulary of the properties -/

/-- The result of `main` when it hands over to one operation: the log callback
is registered first, then the operation runs and decides the exit status. -/
def Result.afterSetup (verbose : Bool) (r : Result) : Result :=
  { trace := .setLogCallback verbose :: r.trace, exitCode := r.exitCode }

/-- The result of `main` when no operation is selected: the callback is
registered, the usage text is printed, and `main` returns. -/
def usageResult (verbose : Bool) : Result :=
  { trace := [.setLogCallback verbose, .printDefaults], exitCode := 0 }

/-- The library call that failed first in a trace, if any did. -/
def firstFailure (t : List Event) : Option CallKind :=
  (t.find? Event.isFailedCall).bind Event.call?

/-- The texts written to standard error, in order. -/
def stderrLines (t : List Event) : List String :=
  t.filterMap fun e =>
    match e with
    | .write .stderr text => some text
    | _ => none

/-- The text `sub` occurs in `s` as a run of consecutive characters. -/
def Contains (s sub : String) : Prop := sub.toList <:+: s.toList

/-- In the trace `t` the event `a` occurs before an occurrence of `b`. -/
def Precedes (a b : Event) (t : List Event) : Prop :=
  ∃ pre post, t = pre ++ b :: post ∧ a ∈ pre

/-- After a failed library call the trace holds no further library call. -/
def failuresTerminal : List Event → Bool
  | [] => true
  | e :: rest =>
    (if e.isFailedCall then rest.all (fun x => !x.isLibCall) else true) && failuresTerminal rest

/-- Whether the event is a call of `ActivateByPassphrase`. -/
def Event.isActivate : Event → Bool
  | .activateByPassphrase _ _ _ _ _ _ => true
  | _ => false

/-- The value `CRYPT_ANY_SLOT` of libcryptsetup, which asks the library to try
every keyslot. -/
def CRYPT_ANY_SLOT : Int := -1

/-! ## What each function does, case by case -/

theorem close_flow (w : World) (name : String) (t : List Event) :
    close w name { trace := t, deferred := [] } =
      if w.initByNameOk name then
        if w.deactivateOk ⟨name⟩ name then
          .next () ⟨t ++ [.initByName name true, .deactivate ⟨name⟩ name true], [.free ⟨name⟩]⟩
        else
          .exited EDEAC (t ++ [.initByName name true, .deactivate ⟨name⟩ name false,
            .write .stderr (sprintln ["Error deactivating device", name])])
      else
        .exited EINIT (t ++ [.initByName name false,
          .write .stderr (sprintln ["Error initializing device by name", name])]) := by
  cases h1 : w.initByNameOk name <;> cases h2 : w.deactivateOk ⟨name⟩ name <;>
    simp [close, bind, Proc.bind, emit, deferCall, osExit, fprintln, h1, h2, pure, Proc.pure]

theorem encrypt_flow (w : World) (dev : String) (t : List Event) :
    encrypt w dev { trace := t, deferred := [] } =
      if w.initOk dev then
        if w.formatOk ⟨dev⟩ luks2 genericParams then
          if w.keyslotAddOk ⟨dev⟩ 0 "" (goString w.passB) then
            .next () ⟨t ++ [.init dev true, .write .stdout (sprintln ["Enter password:"]),
              .readPassword 0 (!w.readErr), .format ⟨dev⟩ luks2 genericParams true,
              .keyslotAddByVolumeKey ⟨dev⟩ 0 "" (goString w.passB) true,
              .deviceType ⟨dev⟩,
              .write .stdout (sprintln ["Formatted device:", w.typeOf ⟨dev⟩])], [.free ⟨dev⟩]⟩
          else
            .exited EPASS (t ++ [.init dev true, .write .stdout (sprintln ["Enter password:"]),
              .readPassword 0 (!w.readErr), .format ⟨dev⟩ luks2 genericParams true,
              .keyslotAddByVolumeKey ⟨dev⟩ 0 "" (goString w.passB) false,
              .write .stderr (sprintln ["Error setting password"])])
        else
          .exited EFORM (t ++ [.init dev true, .write .stdout (sprintln ["Enter password:"]),
            .readPassword 0 (!w.readErr), .format ⟨dev⟩ luks2 genericParams false,
            .write .stderr (sprintln ["Error formatting device"])])
      else
        .exited EINIT (t ++ [.init dev false,
          .write .stderr (sprintln ["Error initializing device", dev])]) := by
  cases h1 : w.initOk dev <;> cases h2 : w.formatOk ⟨dev⟩ luks2 genericParams <;>
    cases h3 : w.keyslotAddOk ⟨dev⟩ 0 "" (goString w.passB) <;>
    simp [encrypt, bind, Proc.bind, emit, deferCall, osExit, fprintln, h1, h2, h3, pure, Proc.pure]

theorem open_flow (w : World) (dev name : String) (t : List Event) :
    open_ w dev name { trace := t, deferred := [] } =
      if w.initOk dev then
        if w.loadOk ⟨dev⟩ none then
          if w.activateOk ⟨dev⟩ name 0 (goString w.passB) 0 then
            .next () ⟨t ++ [.init dev true, .load ⟨dev⟩ none true,
              .write .stdout (sprintln ["Enter password:"]), .readPassword 0 (!w.readErr),
              .activateByPassphrase ⟨dev⟩ name 0 (goString w.passB) 0 true], [.free ⟨dev⟩]⟩
          else
            .exited EACTP (t ++ [.init dev true, .load ⟨dev⟩ none true,
              .write .stdout (sprintln ["Enter password:"]), .readPassword 0 (!w.readErr),
              .activateByPassphrase ⟨dev⟩ name 0 (goString w.passB) 0 false,
              .write .stderr (sprintln ["Error activating device by passphrase", dev])])
        else
          .exited ELOAD (t ++ [.init dev true, .load ⟨dev⟩ none false,
            .write .stderr (sprintln ["Error loading device", dev])])
      else
        .exited EINIT (t ++ [.init dev false,
          .write .stderr (sprintln ["Error initializing device", dev])]) := by
  cases h1 : w.initOk dev <;> cases h2 : w.loadOk ⟨dev⟩ none <;>
    cases h3 : w.activateOk ⟨dev⟩ name 0 (goString w.passB) 0 <;>
    simp [open_, bind, Proc.bind, emit, deferCall, osExit, fprintln, h1, h2, h3, pure, Proc.pure]

/-- The result of `close` run as a process. -/
theorem close_run (w : World) (name : String) :
    runProcess (close w name) =
      if w.initByNameOk name then
        if w.deactivateOk ⟨name⟩ name then
          ⟨[.initByName name true, .deactivate ⟨name⟩ name true, .free ⟨name⟩], 0⟩
        else
          ⟨[.initByName name true, .deactivate ⟨name⟩ name false,
            .write .stderr (sprintln ["Error deactivating device", name])], EDEAC⟩
      else
        ⟨[.initByName name false,
          .write .stderr (sprintln ["Error initializing device by name", name])], EINIT⟩ := by
  simp only [runProcess, callFunc, close_flow]
  split_ifs <;> simp

theorem encrypt_run (w : World) (dev : String) :
    runProcess (encrypt w dev) =
      if w.initOk dev then
        if w.formatOk ⟨dev⟩ luks2 genericParams then
          if w.keyslotAddOk ⟨dev⟩ 0 "" (goString w.passB) then
            ⟨[.init dev true, .write .stdout (sprintln ["Enter password:"]),
              .readPassword 0 (!w.readErr), .format ⟨dev⟩ luks2 genericParams true,
              .keyslotAddByVolumeKey ⟨dev⟩ 0 "" (goString w.passB) true,
              .deviceType ⟨dev⟩,
              .write .stdout (sprintln ["Formatted device:", w.typeOf ⟨dev⟩]),
              .free ⟨dev⟩], 0⟩
          else
            ⟨[.init dev true, .write .stdout (sprintln ["Enter password:"]),
              .readPassword 0 (!w.readErr), .format ⟨dev⟩ luks2 genericParams true,
              .keyslotAddByVolumeKey ⟨dev⟩ 0 "" (goString w.passB) false,
              .write .stderr (sprintln ["Error setting password"])], EPASS⟩
        else
          ⟨[.init dev true, .write .stdout (sprintln ["Enter password:"]),
            .readPassword 0 (!w.readErr), .format ⟨dev⟩ luks2 genericParams false,
            .write .stderr (sprintln ["Error formatting device"])], EFORM⟩
      else
        ⟨[.init dev false,
          .write .stderr (sprintln ["Error initializing device", dev])], EINIT⟩ := by
  simp only [runProcess, callFunc, encrypt_flow]
  split_ifs <;> simp

theorem open_run (w : World) (dev name : String) :
    runProcess (open_ w dev name) =
      if w.initOk dev then
        if w.loadOk ⟨dev⟩ none then
          if w.activateOk ⟨dev⟩ name 0 (goString w.passB) 0 then
            ⟨[.init dev true, .load ⟨dev⟩ none true,
              .write .stdout (sprintln ["Enter password:"]), .readPassword 0 (!w.readErr),
              .activateByPassphrase ⟨dev⟩ name 0 (goString w.passB) 0 true, .free ⟨dev⟩], 0⟩
          else
            ⟨[.init dev true, .load ⟨dev⟩ none true,
              .write .stdout (sprintln ["Enter password:"]), .readPassword 0 (!w.readErr),
              .activateByPassphrase ⟨dev⟩ name 0 (goString w.passB) 0 false,
              .write .stderr (sprintln ["Error activating device by passphrase", dev])], EACTP⟩
        else
          ⟨[.init dev true, .load ⟨dev⟩ none false,
            .write .stderr (sprintln ["Error loading device", dev])], ELOAD⟩
      else
        ⟨[.init dev false,
          .write .stderr (sprintln ["Error initializing device", dev])], EINIT⟩ := by
  simp only [runProcess, callFunc, open_flow]
  split_ifs <;> simp

/-- The result of `main`: the callback is registered, then the first matching
case of the switch runs. -/
theorem main_run (w : World) (f : Flags) :
    runProcess (main w f) =
      if f.close ≠ "" then (runProcess (close w f.close)).afterSetup f.v
      else if f.encrypt ≠ "" then (runProcess (encrypt w f.encrypt)).afterSetup f.v
      else if f.open_ ≠ "" ∧ f.name ≠ "" then
        (runProcess (open_ w f.open_ f.name)).afterSetup f.v
      else usageResult f.v := by
  by_cases hc : f.close = ""
  · by_cases he : f.encrypt = ""
    · by_cases ho : f.open_ ≠ "" ∧ f.name ≠ ""
      · simp only [runProcess, callFunc, main, bind, Proc.bind, emit, List.nil_append, hc, he,
          ho, open_flow, Result.afterSetup]
        obtain ⟨ho1, ho2⟩ := ho
        simp [ho1, ho2]
        split_ifs <;> simp [callFunc, open_flow, *]
      · have ho2 : (f.open_ != "" && f.name != "") = false := by
          by_cases h1 : f.open_ = "" <;> by_cases h2 : f.name = "" <;> simp_all
        simp [runProcess, callFunc, main, bind, Proc.bind, emit, hc, he, ho, ho2, usageResult]
    · simp only [runProcess, callFunc, main, bind, Proc.bind, emit, List.nil_append, hc, he,
        encrypt_flow, Result.afterSetup]
      simp [he]
      split_ifs <;> simp [callFunc, encrypt_flow, *]
  · simp only [runProcess, callFunc, main, bind, Proc.bind, emit, List.nil_append, hc,
      close_flow, Result.afterSetup]
    simp [hc]
    split_ifs <;> simp [callFunc, close_flow, *]

/-! ## C1, C2: the selection of the operation -/

/-- C1: `main` picks the operation by a fixed priority.  With `close` non-empty
the run is the callback registration followed by exactly the run of
`close(close)`; otherwise with `encrypt` non-empty, by exactly the run of
`encrypt(encrypt)`; otherwise with `open` and `name` both non-empty, by exactly
the run of `open(open, name)`; otherwise no operation runs, the usage text is
printed and the exit status is 0.  With all four strings empty the trace holds
no library call and the exit status is 0. -/
theorem C1_main_selects_by_priority (w : World) (f : Flags) :
    (f.close ≠ "" →
      runProcess (main w f) = (runProcess (close w f.close)).afterSetup f.v) ∧
    (f.close = "" → f.encrypt ≠ "" →
      runProcess (main w f) = (runProcess (encrypt w f.encrypt)).afterSetup f.v) ∧
    (f.close = "" → f.encrypt = "" → f.open_ ≠ "" → f.name ≠ "" →
      runProcess (main w f) = (runProcess (open_ w f.open_ f.name)).afterSetup f.v) ∧
    (f.close = "" → f.encrypt = "" → (f.open_ = "" ∨ f.name = "") →
      runProcess (main w f) = { trace := [.setLogCallback f.v, .printDefaults], exitCode := 0 }) ∧
    (f.close = "" → f.encrypt = "" → f.open_ = "" → f.name = "" →
      (∀ e ∈ (runProcess (main w f)).trace, e.isLibCall = false) ∧
      (runProcess (main w f)).exitCode = 0) := by
  refine ⟨?_, ?_, ?_, ?_, ?_⟩
  · intro hc
    rw [main_run, if_pos hc]
  · intro hc he
    rw [main_run, if_neg (not_not.mpr hc), if_pos he]
  · intro hc he ho hn
    rw [main_run, if_neg (not_not.mpr hc), if_neg (not_not.mpr he), if_pos ⟨ho, hn⟩]
  · intro hc he hon
    have h : ¬ (f.open_ ≠ "" ∧ f.name ≠ "") := by
      rintro ⟨h1, h2⟩
      rcases hon with h | h
      · exact h1 h
      · exact h2 h
    rw [main_run, if_neg (not_not.mpr hc), if_neg (not_not.mpr he), if_neg h]
    rfl
  · intro hc he ho _
    have h : ¬ (f.open_ ≠ "" ∧ f.name ≠ "") := fun h => h.1 ho
    rw [main_run, if_neg (not_not.mpr hc), if_neg (not_not.mpr he), if_neg h]
    simp [usageResult, Event.isLibCall, Event.call?]

/-- C1, at a concrete input: with only `-close vol1` given, the process is the
callback registration followed by the run of `close("vol1")`. -/
theorem C1_main_selects_by_priority_witness :
    runProcess (main okWorld ⟨"vol1", "", "", "", false⟩) =
      (runProcess (close okWorld "vol1")).afterSetup false :=
  (C1_main_selects_by_priority okWorld ⟨"vol1", "", "", "", false⟩).1 (by decide)

/-- C2, as stated, fails: with `-open /dev/sdb` given without `-name`, but
`-close vol1` given too, `main` runs `close`; when `InitByName` fails the process
prints no usage text, writes an error and exits with 11. -/
theorem C2_counterexample :
    (("/dev/sdb" : String) ≠ "" ∧ ("" : String) = "") ∧
    runProcess (main { okWorld with initByNameOk := fun _ => false }
        ⟨"vol1", "", "", "/dev/sdb", false⟩) =
      { trace := [.setLogCallback false, .initByName "vol1" false,
          .write .stderr "Error initializing device by name vol1\n"],
        exitCode := 11 } := by
  refine ⟨by decide, ?_⟩
  rw [main_run, if_pos (by decide), close_run]
  decide

/-- C2, amended: when neither `-close` nor `-encrypt` is given and exactly one
of `-open` and `-name` is non-empty, the process registers the callback, prints
the usage text and ends with status 0; its trace holds no library call. -/
theorem C2_open_name_mismatch_prints_usage (w : World) (f : Flags)
    (hc : f.close = "") (he : f.encrypt = "")
    (h : (f.open_ ≠ "" ∧ f.name = "") ∨ (f.name ≠ "" ∧ f.open_ = "")) :
    runProcess (main w f) = { trace := [.setLogCallback f.v, .printDefaults], exitCode := 0 } ∧
    (∀ e ∈ (runProcess (main w f)).trace, e.isLibCall = false) := by
  have hno : ¬ (f.open_ ≠ "" ∧ f.name ≠ "") := by
    rintro ⟨h1, h2⟩
    rcases h with h | h
    · exact h2 h.2
    · exact h1 h.2
  have hrun : runProcess (main w f) = usageResult f.v := by
    rw [main_run, if_neg (not_not.mpr hc), if_neg (not_not.mpr he), if_neg hno]
  rw [hrun]
  exact ⟨rfl, by simp [usageResult, Event.isLibCall, Event.call?]⟩

/-- C2 amended, at a concrete input: `-open /dev/sdb` alone prints the usage. -/
theorem C2_open_name_mismatch_prints_usage_witness :
    runProcess (main okWorld ⟨"", "", "", "/dev/sdb", true⟩) =
        { trace := [.setLogCallback true, .printDefaults], exitCode := 0 } ∧
    (∀ e ∈ (runProcess (main okWorld ⟨"", "", "", "/dev/sdb", true⟩)).trace,
        e.isLibCall = false) :=
  C2_open_name_mismatch_prints_usage okWorld ⟨"", "", "", "/dev/sdb", true⟩ rfl rfl
    (Or.inl ⟨by decide, rfl⟩)

/-! ## C3: exit codes -/

/-- C3: each operation exits with the code of its first failing library call,
and with 0 when none fails.  `close`: 11 when `InitByName` fails, 14 when
`Deactivate` fails.  `encrypt`: 11 when `Init` fails, 12 when `Format` fails, 13
when `KeyslotAddByVolumeKey` fails.  `open`: 11 when `Init` fails, 16 when `Load`
fails, 15 when `ActivateByPassphrase` fails.  For each operation the exit code
is non-zero exactly when the trace holds a failed library call, and two runs
of one operation (in worlds `w` and `w2`) that end with the same code failed
at the same call. -/
theorem C3_exit_code_of_first_failure (w w2 : World) (dev name dev2 name2 : String) :
    ((w.initByNameOk name = false → (runProcess (close w name)).exitCode = 11) ∧
     (w.initByNameOk name = true → w.deactivateOk ⟨name⟩ name = false →
        (runProcess (close w name)).exitCode = 14) ∧
     (w.initByNameOk name = true → w.deactivateOk ⟨name⟩ name = true →
        (runProcess (close w name)).exitCode = 0)) ∧
    ((w.initOk dev = false → (runProcess (encrypt w dev)).exitCode = 11) ∧
     (w.initOk dev = true → w.formatOk ⟨dev⟩ luks2 genericParams = false →
        (runProcess (encrypt w dev)).exitCode = 12) ∧
     (w.initOk dev = true → w.formatOk ⟨dev⟩ luks2 genericParams = true →
        w.keyslotAddOk ⟨dev⟩ 0 "" (goString w.passB) = false →
        (runProcess (encrypt w dev)).exitCode = 13) ∧
     (w.initOk dev = true → w.formatOk ⟨dev⟩ luks2 genericParams = true →
        w.keyslotAddOk ⟨dev⟩ 0 "" (goString w.passB) = true →
        (runProcess (encrypt w dev)).exitCode = 0)) ∧
    ((w.initOk dev = false → (runProcess (open_ w dev name)).exitCode = 11) ∧
     (w.initOk dev = true → w.loadOk ⟨dev⟩ none = false →
        (runProcess (open_ w dev name)).exitCode = 16) ∧
     (w.initOk dev = true → w.loadOk ⟨dev⟩ none = true →
        w.activateOk ⟨dev⟩ name 0 (goString w.passB) 0 = false →
        (runProcess (open_ w dev name)).exitCode = 15) ∧
     (w.initOk dev = true → w.loadOk ⟨dev⟩ none = true →
        w.activateOk ⟨dev⟩ name 0 (goString w.passB) 0 = true →
        (runProcess (open_ w dev name)).exitCode = 0)) ∧
    (firstFailure (runProcess (close w name)).trace =
        (match (runProcess (close w name)).exitCode with
          | 11 => some CallKind.initByName
          | 14 => some CallKind.deactivate
          | _ => none) ∧
     firstFailure (runProcess (encrypt w dev)).trace =
        (match (runProcess (encrypt w dev)).exitCode with
          | 11 => some CallKind.init
          | 12 => some CallKind.format
          | 13 => some CallKind.keyslotAddByVolumeKey
          | _ => none) ∧
     firstFailure (runProcess (open_ w dev name)).trace =
        (match (runProcess (open_ w dev name)).exitCode with
          | 11 => some CallKind.init
          | 16 => some CallKind.load
          | 15 => some CallKind.activateByPassphrase
          | _ => none)) ∧
    (((runProcess (close w name)).exitCode ≠ 0 ↔
        ∃ e ∈ (runProcess (close w name)).trace, e.isFailedCall = true) ∧
     ((runProcess (encrypt w dev)).exitCode ≠ 0 ↔
        ∃ e ∈ (runProcess (encrypt w dev)).trace, e.isFailedCall = true) ∧
     ((runProcess (open_ w dev name)).exitCode ≠ 0 ↔
        ∃ e ∈ (runProcess (open_ w dev name)).trace, e.isFailedCall = true)) ∧
    (((runProcess (close w name)).exitCode = (runProcess (close w2 name2)).exitCode →
        firstFailure (runProcess (close w name)).trace =
          firstFailure (runProcess (close w2 name2)).trace) ∧
     ((runProcess (encrypt w dev)).exitCode = (runProcess (encrypt w2 dev2)).exitCode →
        firstFailure (runProcess (encrypt w dev)).trace =
          firstFailure (runProcess (encrypt w2 dev2)).trace) ∧
     ((runProcess (open_ w dev name)).exitCode = (runProcess (open_ w2 dev2 name2)).exitCode →
        firstFailure (runProcess (open_ w dev name)).trace =
          firstFailure (runProcess (open_ w2 dev2 name2)).trace)) := by
  refine ⟨⟨?_, ?_, ?_⟩, ⟨?_, ?_, ?_, ?_⟩, ⟨?_, ?_, ?_, ?_⟩, ⟨?_, ?_, ?_⟩, ⟨?_, ?_, ?_⟩,
    ⟨?_, ?_, ?_⟩⟩
  · intro h1
    simp [close_run, h1, EINIT]
  · intro h1 h2
    simp [close_run, h1, h2, EDEAC]
  · intro h1 h2
    simp [close_run, h1, h2]
  · intro h1
    simp [encrypt_run, h1, EINIT]
  · intro h1 h2
    simp [encrypt_run, h1, h2, EFORM]
  · intro h1 h2 h3
    simp [encrypt_run, h1, h2, h3, EPASS]
  · intro h1 h2 h3
    simp [encrypt_run, h1, h2, h3]
  · intro h1
    simp [open_run, h1, EINIT]
  · intro h1 h2
    simp [open_run, h1, h2, ELOAD]
  · intro h1 h2 h3
    simp [open_run, h1, h2, h3, EACTP]
  · intro h1 h2 h3
    simp [open_run, h1, h2, h3]
  · rw [close_run]
    split_ifs <;> simp [firstFailure, Event.isFailedCall, Event.call?, EINIT, EDEAC]
  · rw [encrypt_run]
    split_ifs <;> simp [firstFailure, Event.isFailedCall, Event.call?, EINIT, EFORM, EPASS]
  · rw [open_run]
    split_ifs <;> simp [firstFailure, Event.isFailedCall, Event.call?, EINIT, ELOAD, EACTP]
  · rw [close_run]
    split_ifs <;> simp [Event.isFailedCall, EINIT, EDEAC]
  · rw [encrypt_run]
    split_ifs <;> simp [Event.isFailedCall, EINIT, EFORM, EPASS]
  · rw [open_run]
    split_ifs <;> simp [Event.isFailedCall, EINIT, ELOAD, EACTP]
  · rw [close_run, close_run]
    split_ifs <;> simp [firstFailure, Event.isFailedCall, Event.call?, EINIT, EDEAC]
  · rw [encrypt_run, encrypt_run]
    split_ifs <;> simp [firstFailure, Event.isFailedCall, Event.call?, EINIT, EFORM, EPASS]
  · rw [open_run, open_run]
    split_ifs <;> simp [firstFailure, Event.isFailedCall, Event.call?, EINIT, ELOAD, EACTP]

/-- C3, at a concrete input: in a world where `Format` fails (and `Init`
succeeds), `encrypt` exits with 12. -/
theorem C3_exit_code_of_first_failure_witness :
    (runProcess (encrypt { okWorld with formatOk := fun _ _ _ => false } "/dev/sdb")).exitCode
      = 12 :=
  (C3_exit_code_of_first_failure { okWorld with formatOk := fun _ _ _ => false } okWorld
    "/dev/sdb" "vol1" "/dev/sdc" "vol2").2.1.2.1 rfl rfl

/-! ## C4: the error lines -/

/-- Every error line is non-empty, and outside the format and keyslot sites of
`encrypt` it names the mapping (`close`) or the device (`encrypt`, `open`). -/
theorem error_lines_elsewhere (w : World) (dev name : String) :
    (∀ l ∈ stderrLines (runProcess (close w name)).trace, l ≠ "" ∧ Contains l name) ∧
    (∀ l ∈ stderrLines (runProcess (open_ w dev name)).trace, l ≠ "" ∧ Contains l dev) ∧
    (∀ l ∈ stderrLines (runProcess (encrypt w dev)).trace, l ≠ "") ∧
    (w.initOk dev = false →
      ∀ l ∈ stderrLines (runProcess (encrypt w dev)).trace, Contains l dev) := by
  have hne : ∀ (a : String) (b : List String), sprintln (a :: b) ≠ "" := by
    intro a b h
    have h1 := congrArg String.length h
    simp only [sprintln, String.length_append] at h1
    have h2 : "\n".length = 1 := by decide
    have h3 : "".length = 0 := by decide
    omega
  have hc : ∀ (a b : String), Contains (sprintln [a, b]) b := by
    intro a b
    refine ⟨(a ++ " ").toList, "\n".toList, ?_⟩
    simp [sprintln, String.intercalate, String.intercalate.go]
  refine ⟨?_, ?_, ?_, ?_⟩
  · rw [close_run]
    split_ifs <;> simp [stderrLines, hne, hc]
  · rw [open_run]
    split_ifs <;> simp [stderrLines, hne, hc]
  · rw [encrypt_run]
    split_ifs <;> simp [stderrLines, hne]
  · intro h
    rw [encrypt_run]
    simp [h, stderrLines, hc]

/-- C4, where the code departs from it: when `Format` fails on `/dev/sdb`, the
only line on standard error is `Error formatting device`, which does not
contain the device path; likewise `Error setting password` when the keyslot
cannot be added. -/
theorem C4_encrypt_error_lines_lack_device :
    stderrLines (runProcess
        (encrypt { okWorld with formatOk := fun _ _ _ => false } "/dev/sdb")).trace
      = ["Error formatting device\n"] ∧
    ¬ Contains "Error formatting device\n" "/dev/sdb" ∧
    stderrLines (runProcess
        (encrypt { okWorld with keyslotAddOk := fun _ _ _ _ => false } "/dev/sdb")).trace
      = ["Error setting password\n"] ∧
    ¬ Contains "Error setting password\n" "/dev/sdb" := by
  refine ⟨?_, ?_, ?_, ?_⟩
  · rw [encrypt_run]; decide
  · unfold Contains; decide
  · rw [encrypt_run]; decide
  · unfold Contains; decide

/-! ## C5: the release of the device handle -/

/-- C5, where the code departs from it: once the handle is acquired, a failing
step leaves through `os.Exit` and the deferred `Free` never runs.  When
`Deactivate` fails, `close("vol1")` has obtained the handle, writes its error
line and exits with 14, and its trace holds no release; the same happens in
`encrypt` when `Format` or `KeyslotAddByVolumeKey` fails and in `open` when
`Load` or `ActivateByPassphrase` fails, each after a successful `Init`. -/
theorem C5_free_skipped_on_failure_after_init :
    (runProcess (close { okWorld with deactivateOk := fun _ _ => false } "vol1")) =
      { trace := [.initByName "vol1" true, .deactivate ⟨"vol1"⟩ "vol1" false,
          .write .stderr "Error deactivating device vol1\n"],
        exitCode := 14 } ∧
    ((runProcess (close { okWorld with deactivateOk := fun _ _ => false } "vol1")).trace.filter
        Event.isFree).length = 0 ∧
    (Event.init "/dev/sdb" true ∈
        (runProcess (encrypt { okWorld with formatOk := fun _ _ _ => false } "/dev/sdb")).trace ∧
      ((runProcess (encrypt { okWorld with formatOk := fun _ _ _ => false }
          "/dev/sdb")).trace.filter Event.isFree).length = 0) ∧
    (Event.init "/dev/sdb" true ∈
        (runProcess (encrypt { okWorld with keyslotAddOk := fun _ _ _ _ => false }
          "/dev/sdb")).trace ∧
      ((runProcess (encrypt { okWorld with keyslotAddOk := fun _ _ _ _ => false }
          "/dev/sdb")).trace.filter Event.isFree).length = 0) ∧
    (Event.init "/dev/sdb" true ∈
        (runProcess (open_ { okWorld with loadOk := fun _ _ => false } "/dev/sdb" "vol1")).trace ∧
      ((runProcess (open_ { okWorld with loadOk := fun _ _ => false }
          "/dev/sdb" "vol1")).trace.filter Event.isFree).length = 0) ∧
    (Event.init "/dev/sdb" true ∈
        (runProcess (open_ { okWorld with activateOk := fun _ _ _ _ _ => false }
          "/dev/sdb" "vol1")).trace ∧
      ((runProcess (open_ { okWorld with activateOk := fun _ _ _ _ _ => false }
          "/dev/sdb" "vol1")).trace.filter Event.isFree).length = 0) := by
  refine ⟨?_, ?_, ⟨?_, ?_⟩, ⟨?_, ?_⟩, ⟨?_, ?_⟩, ⟨?_, ?_⟩⟩
  · rw [close_run]; decide
  · rw [close_run]; decide
  · rw [encrypt_run]; decide
  · rw [encrypt_run]; decide
  · rw [encrypt_run]; decide
  · rw [encrypt_run]; decide
  · rw [open_run]; decide
  · rw [open_run]; decide
  · rw [open_run]; decide
  · rw [open_run]; decide

/-- The release of the handle where it does happen: in each of `close`,
`encrypt` and `open`, when no library call fails the trace holds exactly one
release of the handle, it is the last event of the trace (so it happens before
the process ends, after every other call) and the exit status is 0; when the
call that obtains the handle fails, there is no handle and the trace holds no
release. -/
theorem free_once_when_no_call_fails (w : World) (dev name : String) :
    (((∀ e ∈ (runProcess (close w name)).trace, e.isFailedCall = false) →
        ((runProcess (close w name)).trace.filter Event.isFree).length = 1 ∧
        (runProcess (close w name)).trace.getLast? = some (.free ⟨name⟩) ∧
        (runProcess (close w name)).exitCode = 0) ∧
     (w.initByNameOk name = false →
        (runProcess (close w name)).trace.filter Event.isFree = [])) ∧
    (((∀ e ∈ (runProcess (encrypt w dev)).trace, e.isFailedCall = false) →
        ((runProcess (encrypt w dev)).trace.filter Event.isFree).length = 1 ∧
        (runProcess (encrypt w dev)).trace.getLast? = some (.free ⟨dev⟩) ∧
        (runProcess (encrypt w dev)).exitCode = 0) ∧
     (w.initOk dev = false →
        (runProcess (encrypt w dev)).trace.filter Event.isFree = [])) ∧
    (((∀ e ∈ (runProcess (open_ w dev name)).trace, e.isFailedCall = false) →
        ((runProcess (open_ w dev name)).trace.filter Event.isFree).length = 1 ∧
        (runProcess (open_ w dev name)).trace.getLast? = some (.free ⟨dev⟩) ∧
        (runProcess (open_ w dev name)).exitCode = 0) ∧
     (w.initOk dev = false →
        (runProcess (open_ w dev name)).trace.filter Event.isFree = [])) := by
  refine ⟨⟨?_, ?_⟩, ⟨?_, ?_⟩, ⟨?_, ?_⟩⟩
  · rw [close_run]
    split_ifs <;> simp [Event.isFailedCall, Event.isFree]
  · intro h
    simp [close_run, h, Event.isFree]
  · rw [encrypt_run]
    split_ifs <;> simp [Event.isFailedCall, Event.isFree]
  · intro h
    simp [encrypt_run, h, Event.isFree]
  · rw [open_run]
    split_ifs <;> simp [Event.isFailedCall, Event.isFree]
  · intro h
    simp [open_run, h, Event.isFree]

/-- At a concrete input: `close("vol1")` with every call succeeding
releases the handle exactly once, as its last action. -/
theorem free_once_example :
    ((runProcess (close okWorld "vol1")).trace.filter Event.isFree).length = 1 ∧
    (runProcess (close okWorld "vol1")).trace.getLast? = some (.free ⟨"vol1"⟩) ∧
    (runProcess (close okWorld "vol1")).exitCode = 0 :=
  (free_once_when_no_call_fails okWorld "/dev/sdb" "vol1").1.1 (by
    rw [close_run]; decide)

/-! ## C6: the parameters of the format call -/

/-- C6: whatever the device and the behaviour of the library, a `Format` call
made by `encrypt` carries the fixed parameters: KDF `argon2id` with hash
`sha512`, 2000 ms, 2 iterations, 16384 KiB (16 MiB) of memory, 2 threads;
sector size 512; cipher `aes`, mode `xts-plain64`, a volume key of 64 bytes
(512 bits).  The call is made whenever `Init` succeeds. -/
theorem C6_format_parameters_fixed (w : World) (dev : String) :
    (∀ d l p ok, Event.format d l p ok ∈ (runProcess (encrypt w dev)).trace →
      (∃ k, l.PBKDFType = some k ∧ k.Type_ = "argon2id" ∧ k.Hash = "sha512" ∧
        k.TimeMs = 2000 ∧ k.Iterations = 2 ∧ k.MaxMemoryKb = 16384 ∧
        k.MaxMemoryKb = 16 * 1024 ∧ k.ParallelThreads = 2) ∧
      l.SectorSize = 512 ∧ p.Cipher = "aes" ∧ p.CipherMode = "xts-plain64" ∧
      p.VolumeKeySize = 64 ∧ p.VolumeKeySize * 8 = 512) ∧
    (w.initOk dev = true →
      ∃ ok, Event.format ⟨dev⟩ luks2 genericParams ok ∈ (runProcess (encrypt w dev)).trace) := by
  constructor
  · intro d l p ok h
    have hl : l = luks2 ∧ p = genericParams := by
      rw [encrypt_run] at h
      split_ifs at h <;> simp at h <;> exact ⟨h.2.1, h.2.2.1⟩
    obtain ⟨rfl, rfl⟩ := hl
    exact ⟨⟨pbkdftype, rfl, rfl, rfl, rfl, rfl, rfl, rfl, rfl⟩, rfl, rfl, rfl, rfl, rfl⟩
  · intro h
    rw [encrypt_run]
    simp only [h, if_true]
    split_ifs <;> simp

/-- C6, at a concrete input: the `Format` call of `encrypt("/dev/sdb")`. -/
theorem C6_format_parameters_fixed_witness :
    ∃ ok, Event.format ⟨"/dev/sdb"⟩ luks2 genericParams ok ∈
      (runProcess (encrypt okWorld "/dev/sdb")).trace :=
  (C6_format_parameters_fixed okWorld "/dev/sdb").2 rfl

/-! ## C7: the calls made by `open` -/

/-- C7, as stated, fails: the activation call of `open("/dev/sdb", "vol1")` is
`ActivateByPassphrase("vol1", 0, "secret", 0)`; its keyslot argument is the
slot number 0, not `CRYPT_ANY_SLOT`. -/
theorem C7_counterexample :
    (runProcess (open_ okWorld "/dev/sdb" "vol1")).trace.filter Event.isActivate =
      [.activateByPassphrase ⟨"/dev/sdb"⟩ "vol1" 0 "secret" 0 true] ∧
    (0 : Int) ≠ CRYPT_ANY_SLOT := by
  constructor
  · rw [open_run]; decide
  · decide

/-- C7, amended: an activation call made by `open` names the given mapping,
carries the passphrase read, the keyslot number 0 and the flags 0; a `Load`
call made by `open` has no format hint.  `Load` is called whenever `Init`
succeeds, and the activation whenever `Load` succeeds too. -/
theorem C7_open_activates_keyslot_zero (w : World) (dev name : String) :
    (∀ d n k p fl ok,
      Event.activateByPassphrase d n k p fl ok ∈ (runProcess (open_ w dev name)).trace →
      d = ⟨dev⟩ ∧ n = name ∧ k = 0 ∧ p = goString w.passB ∧ fl = 0 ∧
      Precedes (.load ⟨dev⟩ none true) (.activateByPassphrase d n k p fl ok)
        (runProcess (open_ w dev name)).trace) ∧
    (∀ d hint ok, Event.load d hint ok ∈ (runProcess (open_ w dev name)).trace →
      d = ⟨dev⟩ ∧ hint = none) ∧
    (w.initOk dev = true →
      ∃ ok, Event.load ⟨dev⟩ none ok ∈ (runProcess (open_ w dev name)).trace) ∧
    (w.initOk dev = true → w.loadOk ⟨dev⟩ none = true →
      ∃ ok, Event.activateByPassphrase ⟨dev⟩ name 0 (goString w.passB) 0 ok ∈
        (runProcess (open_ w dev name)).trace) := by
  refine ⟨?_, ?_, ?_, ?_⟩
  · intro d n k p fl ok h
    rw [open_run] at h ⊢
    split_ifs at h ⊢ <;> simp at h
    all_goals
      obtain ⟨rfl, rfl, rfl, rfl, rfl, rfl⟩ := h
      refine ⟨rfl, rfl, rfl, rfl, rfl, ?_⟩
    · exact ⟨[.init dev true, .load ⟨dev⟩ none true,
        .write .stdout (sprintln ["Enter password:"]), .readPassword 0 (!w.readErr)],
        [.free ⟨dev⟩], by simp, by simp⟩
    · exact ⟨[.init dev true, .load ⟨dev⟩ none true,
        .write .stdout (sprintln ["Enter password:"]), .readPassword 0 (!w.readErr)],
        [.write .stderr (sprintln ["Error activating device by passphrase", dev])],
        by simp, by simp⟩
  · intro d hint ok h
    rw [open_run] at h
    split_ifs at h <;> simp at h <;> exact ⟨h.1, h.2.1⟩
  · intro h
    rw [open_run]
    simp only [h, if_true]
    split_ifs <;> simp
  · intro h1 h2
    rw [open_run]
    simp only [h1, h2, if_true]
    split_ifs <;> simp

/-- C7 amended, at a concrete input: `open("/dev/sdb", "vol1")` with the
password `secret` typed. -/
theorem C7_open_activates_keyslot_zero_witness :
    ∃ ok, Event.activateByPassphrase ⟨"/dev/sdb"⟩ "vol1" 0 "secret" 0 ok ∈
      (runProcess (open_ okWorld "/dev/sdb" "vol1")).trace :=
  (C7_open_activates_keyslot_zero okWorld "/dev/sdb" "vol1").2.2.2 rfl rfl

/-! ## C8: the log callback -/

theorem parsenumLoop_length (cs : List Char) (num : Nat) (isnum : Bool) :
    (parsenumLoop cs num isnum).2.2.length ≤ cs.length := by
  induction cs generalizing num isnum with
  | nil => simp [parsenumLoop]
  | cons c cs ih =>
    unfold parsenumLoop
    split_ifs
    · simp
    · exact Nat.le_succ_of_le (ih _ _)
    · simp

theorem argNumber_length (cs : List Char) (good : Bool) :
    (argNumber cs good).1.length ≤ cs.length := by
  unfold argNumber
  split
  · simp [List.length_drop]
  · simp

theorem verbWidth_length (cs : List Char) (afterIndex good : Bool) :
    (verbWidth cs afterIndex good).2.1.length ≤ cs.length := by
  unfold verbWidth
  split
  · simp
  · exact parsenumLoop_length _ _ _

theorem verbPrec_length (cs : List Char) (afterIndex good : Bool) :
    (verbPrec cs afterIndex good).2.1.length ≤ cs.length := by
  cases cs with
  | nil => simp [verbPrec]
  | cons c rest =>
    by_cases hc : c = '.'
    · subst hc
      have h1 := argNumber_length rest (if afterIndex then false else good)
      rcases hA : argNumber rest (if afterIndex then false else good) with ⟨rest1, a1, g2⟩
      rw [hA] at h1
      simp only at h1
      cases rest1 with
      | nil => simp only [verbPrec, hA, parsenum, parsenumLoop, List.length_nil, Nat.zero_le]
      | cons c2 rest2 =>
        by_cases hs : c2 = '*'
        · subst hs
          simp only [verbPrec, hA, List.length_cons] at h1 ⊢
          omega
        · have h2 := parsenumLoop_length (c2 :: rest2) 0 false
          have he : (verbPrec ('.' :: rest) afterIndex good).2.1 =
              (parsenum (c2 :: rest2)).2.2 := by
            simp only [verbPrec, hA]
            split
            · rename_i heq
              simp at heq
              exact absurd heq.1 hs
            · rfl
          rw [he]
          simp only [parsenum, List.length_cons] at h1 h2 ⊢
          omega
    · have he : (verbPrec (c :: rest) afterIndex good).2.1 = c :: rest := by
        unfold verbPrec
        split
        · rename_i heq
          simp at heq
          exact absurd heq.1 hc
        · rfl
      rw [he]

/-- A verb takes at least one character of the format. -/
theorem doVerb_length (cs : List Char) (out rest : List Char)
    (h : doVerb cs = (out, some rest)) : rest.length < cs.length := by
  have h0 : (cs.dropWhile isFlagChar).length ≤ cs.length :=
    (List.dropWhile_sublist isFlagChar).length_le
  have h1 := argNumber_length (cs.dropWhile isFlagChar) true
  rcases hA : argNumber (cs.dropWhile isFlagChar) true with ⟨cs2, a2, g2⟩
  rw [hA] at h1
  have h2 := verbWidth_length cs2 a2 g2
  rcases hW : verbWidth cs2 a2 g2 with ⟨outW, cs3, a3, g3⟩
  rw [hW] at h2
  have h3 := verbPrec_length cs3 a3 g3
  rcases hP : verbPrec cs3 a3 g3 with ⟨outP, cs4, a4, g4⟩
  rw [hP] at h3
  have h4 : (if a4 then (cs4, a4, g4) else argNumber cs4 g4).1.length ≤ cs4.length := by
    split_ifs
    · simp
    · exact argNumber_length _ _
  rcases hN : (if a4 then (cs4, a4, g4) else argNumber cs4 g4) with ⟨cs5, a5, g5⟩
  rw [hN] at h4
  simp only at h1 h2 h3 h4
  simp only [doVerb, hA, hW, hP, hN] at h
  cases cs5 with
  | nil => simp at h
  | cons verb rest5 =>
    simp only at h
    have hr : rest = rest5 := by
      split_ifs at h <;> simp at h <;> exact h.2.symm
    subst hr
    simp only [List.length_cons] at h4
    omega

/-- The loop of `doPrintf` needs no more rounds than the format has characters,
plus one: with that many or more the text is the same. -/
theorem doPrintf_fuel (n m : Nat) (format : List Char)
    (hn : format.length < n) (hm : format.length < m) :
    doPrintf n format = doPrintf m format := by
  induction n generalizing m format with
  | zero => omega
  | succ n ih =>
    cases m with
    | zero => omega
    | succ m =>
      unfold doPrintf
      have h0 : (format.dropWhile (fun c => c != '%')).length ≤ format.length :=
        (List.dropWhile_sublist _).length_le
      generalize format.dropWhile (fun c => c != '%') = tl at h0
      cases tl with
      | nil => rfl
      | cons c afterPercent =>
        simp only
        have h1 := doVerb_length afterPercent
        generalize doVerb afterPercent = r at h1
        obtain ⟨out, rest⟩ := r
        cases rest with
        | none => rfl
        | some rest =>
          have h2 := h1 out rest rfl
          simp only [List.length_cons] at h0
          simp only
          rw [ih m rest (by omega) (by omega)]

/-- A format without a percent sign is written as it is. -/
theorem sprintf_of_no_percent (message : String) (h : '%' ∉ message.toList) :
    sprintf message = message := by
  unfold sprintf doPrintf
  have h1 : message.toList.dropWhile (fun c => c != '%') = [] := by
    rw [List.dropWhile_eq_nil_iff]
    intro c hc
    have : c ≠ '%' := fun e => h (e ▸ hc)
    simpa using this
  have h2 : message.toList.takeWhile (fun c => c != '%') = message.toList := by
    rw [List.takeWhile_eq_self_iff]
    intro c hc
    have : c ≠ '%' := fun e => h (e ▸ hc)
    simpa using this
  simp only [h1, h2]
  rfl

/-- What the callback does outside the case of a percent sign: nothing when
the verbose flag is unset; when it is set, a message without a percent sign is
written to standard output as it is. -/
theorem logCallback_plain (level : Int) (message : String) :
    logCallback false level message = [] ∧
    ('%' ∉ message.toList →
      logCallback true level message = [.write .stdout message]) := by
  constructor
  · rfl
  · intro h
    simp [logCallback, sprintf_of_no_percent message h]

/-- C8, where the code departs from it: with the verbose flag set, the message
`100%` is not written as it is.  `fmt.Printf` takes it for a format whose last
verb is cut short and writes `100%!(NOVERB)`; likewise `50% done` comes out as
`50%!d(MISSING)one` and `%%` as a single percent sign. -/
theorem C8_percent_message_not_written_verbatim :
    logCallback true 3 "100%" = [.write .stdout "100%!(NOVERB)"] ∧
    logCallback true 3 "100%" ≠ [.write .stdout "100%"] ∧
    logCallback true 3 "50% done" = [.write .stdout "50%!d(MISSING)one"] ∧
    logCallback true 3 "%%" = [.write .stdout "%"] := by
  refine ⟨?_, ?_, ?_, ?_⟩ <;> decide

/-! ## C9: failures are terminal -/

theorem failuresTerminal_spec (t : List Event) (h : failuresTerminal t = true)
    (pre : List Event) (e : Event) (post : List Event) (ht : t = pre ++ e :: post)
    (he : e.isFailedCall = true) : ∀ x ∈ post, x.isLibCall = false := by
  induction pre generalizing t with
  | nil =>
    subst ht
    simp only [List.nil_append, failuresTerminal, he, if_true, Bool.and_eq_true,
      List.all_eq_true] at h
    intro x hx
    simpa using h.1 x hx
  | cons a pre ih =>
    subst ht
    simp only [List.cons_append, failuresTerminal, Bool.and_eq_true] at h
    exact ih _ h.2 rfl

/-- C9: in each of `close`, `encrypt` and `open`, after a failed library call
the trace holds no further library call, and no library call occurs twice.
`encrypt` calls `KeyslotAddByVolumeKey` only with keyslot 0, the empty volume
key (the key just created) and the passphrase read, and only after a
successful `Format`; when the keyslot call fails after a successful `Format`
the process writes one error line and exits with 13, with no call after it.
`open` prompts and reads the passphrase only after a successful `Load`, and
calls `ActivateByPassphrase` at most once. -/
theorem C9_failures_are_terminal (w : World) (dev name : String) :
    (∀ r ∈ [runProcess (close w name), runProcess (encrypt w dev),
        runProcess (open_ w dev name)],
      (∀ pre e post, r.trace = pre ++ e :: post → e.isFailedCall = true →
        ∀ x ∈ post, x.isLibCall = false) ∧
      (r.trace.filterMap Event.call?).Nodup) ∧
    (∀ d k vk p ok,
      Event.keyslotAddByVolumeKey d k vk p ok ∈ (runProcess (encrypt w dev)).trace →
      d = ⟨dev⟩ ∧ k = 0 ∧ vk = "" ∧ p = goString w.passB ∧
      Precedes (.format ⟨dev⟩ luks2 genericParams true)
        (.keyslotAddByVolumeKey d k vk p ok) (runProcess (encrypt w dev)).trace) ∧
    (w.initOk dev = true → w.formatOk ⟨dev⟩ luks2 genericParams = true →
      w.keyslotAddOk ⟨dev⟩ 0 "" (goString w.passB) = false →
      runProcess (encrypt w dev) =
        { trace := [.init dev true, .write .stdout "Enter password:\n",
            .readPassword 0 (!w.readErr), .format ⟨dev⟩ luks2 genericParams true,
            .keyslotAddByVolumeKey ⟨dev⟩ 0 "" (goString w.passB) false,
            .write .stderr "Error setting password\n"],
          exitCode := 13 }) ∧
    (∀ fd ok, Event.readPassword fd ok ∈ (runProcess (open_ w dev name)).trace →
      Precedes (.load ⟨dev⟩ none true) (.readPassword fd ok)
        (runProcess (open_ w dev name)).trace) ∧
    (∀ text, Event.write .stdout text ∈ (runProcess (open_ w dev name)).trace →
      Precedes (.load ⟨dev⟩ none true) (.write .stdout text)
        (runProcess (open_ w dev name)).trace) ∧
    ((runProcess (open_ w dev name)).trace.filter Event.isActivate).length ≤ 1 := by
  refine ⟨?_, ?_, ?_, ?_, ?_, ?_⟩
  · intro r hr
    simp only [List.mem_cons, List.mem_singleton, List.not_mem_nil, or_false] at hr
    have key : failuresTerminal r.trace = true ∧ (r.trace.filterMap Event.call?).Nodup := by
      rcases hr with rfl | rfl | rfl
      · rw [close_run]
        split_ifs <;>
          simp [failuresTerminal, Event.isFailedCall, Event.isLibCall, Event.call?]
      · rw [encrypt_run]
        split_ifs <;>
          simp [failuresTerminal, Event.isFailedCall, Event.isLibCall, Event.call?]
      · rw [open_run]
        split_ifs <;>
          simp [failuresTerminal, Event.isFailedCall, Event.isLibCall, Event.call?]
    exact ⟨failuresTerminal_spec r.trace key.1, key.2⟩
  · intro d k vk p ok h
    rw [encrypt_run] at h ⊢
    split_ifs at h ⊢ <;> simp at h
    all_goals
      obtain ⟨rfl, rfl, rfl, rfl, rfl⟩ := h
      refine ⟨rfl, rfl, rfl, rfl, ?_⟩
    · exact ⟨[.init dev true, .write .stdout (sprintln ["Enter password:"]),
        .readPassword 0 (!w.readErr), .format ⟨dev⟩ luks2 genericParams true],
        [.deviceType ⟨dev⟩, .write .stdout (sprintln ["Formatted device:", w.typeOf ⟨dev⟩]),
          .free ⟨dev⟩], by simp, by simp⟩
    · exact ⟨[.init dev true, .write .stdout (sprintln ["Enter password:"]),
        .readPassword 0 (!w.readErr), .format ⟨dev⟩ luks2 genericParams true],
        [.write .stderr (sprintln ["Error setting password"])], by simp, by simp⟩
  · intro h1 h2 h3
    rw [encrypt_run]
    simp only [h1, h2, h3, if_true]
    rfl
  · intro fd ok h
    rw [open_run] at h ⊢
    split_ifs at h ⊢ <;> simp at h
    all_goals
      obtain ⟨rfl, rfl⟩ := h
    · exact ⟨[.init dev true, .load ⟨dev⟩ none true,
        .write .stdout (sprintln ["Enter password:"])],
        [.activateByPassphrase ⟨dev⟩ name 0 (goString w.passB) 0 true, .free ⟨dev⟩],
        by simp, by simp⟩
    · exact ⟨[.init dev true, .load ⟨dev⟩ none true,
        .write .stdout (sprintln ["Enter password:"])],
        [.activateByPassphrase ⟨dev⟩ name 0 (goString w.passB) 0 false,
          .write .stderr (sprintln ["Error activating device by passphrase", dev])],
        by simp, by simp⟩
  · intro text h
    rw [open_run] at h ⊢
    split_ifs at h ⊢ <;> simp at h
    all_goals subst h
    · exact ⟨[.init dev true, .load ⟨dev⟩ none true],
        [.readPassword 0 (!w.readErr),
          .activateByPassphrase ⟨dev⟩ name 0 (goString w.passB) 0 true, .free ⟨dev⟩],
        by simp, by simp⟩
    · exact ⟨[.init dev true, .load ⟨dev⟩ none true],
        [.readPassword 0 (!w.readErr),
          .activateByPassphrase ⟨dev⟩ name 0 (goString w.passB) 0 false,
          .write .stderr (sprintln ["Error activating device by passphrase", dev])],
        by simp, by simp⟩
  · rw [open_run]
    split_ifs <;> simp [Event.isActivate]

/-- C9, at a concrete input: when the keyslot cannot be added on `/dev/sdb`,
the process has formatted the device, makes no further call and exits 13. -/
theorem C9_failures_are_terminal_witness :
    runProcess (encrypt { okWorld with keyslotAddOk := fun _ _ _ _ => false } "/dev/sdb") =
      { trace := [.init "/dev/sdb" true, .write .stdout "Enter password:\n",
          .readPassword 0 true, .format ⟨"/dev/sdb"⟩ luks2 genericParams true,
          .keyslotAddByVolumeKey ⟨"/dev/sdb"⟩ 0 "" "secret" false,
          .write .stderr "Error setting password\n"],
        exitCode := 13 } :=
  (C9_failures_are_terminal { okWorld with keyslotAddOk := fun _ _ _ _ => false }
    "/dev/sdb" "vol1").2.2.1 rfl rfl rfl

/-! ## C10: a failed read of the passphrase -/

/-- C10: when `term.ReadPassword` returns an error, nothing changes but the
read itself.  After a successful `Init`, `encrypt` goes on with `Format` and,
when that succeeds, with `KeyslotAddByVolumeKey` carrying the bytes the read
returned (the empty string for the nil slice); after a successful `Init` and
`Load`, `open` goes on with `ActivateByPassphrase` carrying those bytes.  The
exit code, and every event other than the read, is the same as in the world
where the read succeeded and returned the same bytes; so is the exit code of
`main` for every choice of flags. -/
theorem C10_read_failure_is_ignored (w : World) (dev name : String)
    (hread : w.readErr = true) :
    (w.initOk dev = true →
      [.init dev true, .write .stdout "Enter password:\n", .readPassword 0 false,
        .format ⟨dev⟩ luks2 genericParams (w.formatOk ⟨dev⟩ luks2 genericParams)]
        <+: (runProcess (encrypt w dev)).trace) ∧
    (w.initOk dev = true → w.formatOk ⟨dev⟩ luks2 genericParams = true →
      [.init dev true, .write .stdout "Enter password:\n", .readPassword 0 false,
        .format ⟨dev⟩ luks2 genericParams true,
        .keyslotAddByVolumeKey ⟨dev⟩ 0 "" (goString w.passB)
          (w.keyslotAddOk ⟨dev⟩ 0 "" (goString w.passB))]
        <+: (runProcess (encrypt w dev)).trace) ∧
    (w.initOk dev = true → w.loadOk ⟨dev⟩ none = true →
      [.init dev true, .load ⟨dev⟩ none true, .write .stdout "Enter password:\n",
        .readPassword 0 false,
        .activateByPassphrase ⟨dev⟩ name 0 (goString w.passB) 0
          (w.activateOk ⟨dev⟩ name 0 (goString w.passB) 0)]
        <+: (runProcess (open_ w dev name)).trace) ∧
    goString none = "" ∧
    (runProcess (encrypt w dev)).exitCode =
      (runProcess (encrypt { w with readErr := false } dev)).exitCode ∧
    (runProcess (open_ w dev name)).exitCode =
      (runProcess (open_ { w with readErr := false } dev name)).exitCode ∧
    (runProcess (encrypt w dev)).trace.filter (fun e => e != .readPassword 0 false) =
      (runProcess (encrypt { w with readErr := false } dev)).trace.filter
        (fun e => e != .readPassword 0 true) ∧
    (runProcess (open_ w dev name)).trace.filter (fun e => e != .readPassword 0 false) =
      (runProcess (open_ { w with readErr := false } dev name)).trace.filter
        (fun e => e != .readPassword 0 true) ∧
    (∀ f : Flags, (runProcess (main w f)).exitCode =
      (runProcess (main { w with readErr := false } f)).exitCode) := by
  refine ⟨?_, ?_, ?_, rfl, ?_, ?_, ?_, ?_, ?_⟩
  · intro h1
    rw [encrypt_run]
    simp only [h1, hread, if_true]
    split_ifs with h2 h3 <;> simp [h2, sprintln, List.prefix_iff_eq_append] <;> rfl
  · intro h1 h2
    rw [encrypt_run]
    simp only [h1, h2, hread, if_true]
    split_ifs with h3 <;> simp [h3, sprintln, List.prefix_iff_eq_append] <;> rfl
  · intro h1 h2
    rw [open_run]
    simp only [h1, h2, hread, if_true]
    split_ifs with h3 <;> simp [h3, sprintln, List.prefix_iff_eq_append] <;> rfl
  · rw [encrypt_run, encrypt_run]
    split_ifs <;> rfl
  · rw [open_run, open_run]
    split_ifs <;> rfl
  · rw [encrypt_run, encrypt_run]
    simp only [hread]
    split_ifs <;> simp
  · rw [open_run, open_run]
    simp only [hread]
    split_ifs <;> simp
  · intro f
    have hc : (runProcess (close w f.close)).exitCode =
        (runProcess (close { w with readErr := false } f.close)).exitCode := by
      rw [close_run, close_run]
    have he : (runProcess (encrypt w f.encrypt)).exitCode =
        (runProcess (encrypt { w with readErr := false } f.encrypt)).exitCode := by
      rw [encrypt_run, encrypt_run]
      split_ifs <;> rfl
    have ho : (runProcess (open_ w f.open_ f.name)).exitCode =
        (runProcess (open_ { w with readErr := false } f.open_ f.name)).exitCode := by
      rw [open_run, open_run]
      split_ifs <;> rfl
    rw [main_run, main_run]
    split_ifs <;> simp only [Result.afterSetup, hc, he, ho]

/-- C10, at a concrete input: the read fails and returns the nil slice; `encrypt`
formats `/dev/sdb` all the same and adds the empty passphrase as keyslot 0. -/
theorem C10_read_failure_is_ignored_witness :
    [.init "/dev/sdb" true, .write .stdout "Enter password:\n", .readPassword 0 false,
      .format ⟨"/dev/sdb"⟩ luks2 genericParams true,
      .keyslotAddByVolumeKey ⟨"/dev/sdb"⟩ 0 "" "" true]
      <+: (runProcess (encrypt { okWorld with passB := none, readErr := true }
            "/dev/sdb")).trace :=
  (C10_read_failure_is_ignored { okWorld with passB := none, readErr := true }
    "/dev/sdb" "vol1" rfl).2.1 rfl rfl

end CryptsetupEz
